import Mathlib

/-!
Shallow embedding of the ValueOracle repository core.

Part A embeds the `PurchaseGuard` Solidity contract (the full variant with
confidential requests and reviews): storage, events, errors, and every
external function, with `msg.sender` and `block.timestamp` passed explicitly
and `keccak256` idealised as a collision-free constructor of an inductive
`Bytes32` type (one constructor per `abi.encodePacked` shape used by the
contract).

Part B embeds the decision-engine API (`median`, `clamp`,
`calculateValueScore`, the verdict step) and the seller reputation service
(`getReviewStats`, `getScore`), with JavaScript numbers modelled as exact
rationals and `toFixed` / `Math.round` modelled as explicit decimal
roundings.
-/

namespace PurchaseGuard

/-- Ethereum addresses, modelled as naturals; `0` is the zero address that
Solidity uses as the default value of an `address` storage slot. -/
abbrev Address := Nat

/-- Idealised `bytes32` values. `keccak256 (abi.encodePacked ...)` is
modelled by one constructor per packing shape used in the contract, which
makes the hash injective on each shape and collision-free across shapes
(the standard ideal-hash model). `raw n` stands for externally supplied
words such as salts; `raw 0` is Solidity's zero `bytes32`. -/
inductive Bytes32 where
  | raw : Nat → Bytes32
  | hashReq : String → Nat → String → Address → Nat → Nat → Bytes32
  | hashConf : Bytes32 → Address → Nat → Nat → Bytes32
  | hashIntent : String → Nat → String → Bytes32 → Bytes32
  deriving DecidableEq, Repr

/-- Storage struct `PurchaseRequest` of the contract. -/
structure PurchaseRequest where
  itemId : String
  proposedPrice : Nat
  sellerId : String
  requester : Address
  fulfilled : Bool
  approved : Bool
  referencePrice : Nat
  timestamp : Nat
  deriving DecidableEq, Repr

/-- Zero-initialised `PurchaseRequest`, the value a Solidity mapping returns
for a key that was never written. -/
def emptyPurchaseRequest : PurchaseRequest :=
  { itemId := "", proposedPrice := 0, sellerId := "", requester := 0,
    fulfilled := false, approved := false, referencePrice := 0, timestamp := 0 }

/-- Storage struct `ConfidentialRequest` of the contract. -/
structure ConfidentialRequest where
  intentHash : Bytes32
  requester : Address
  fulfilled : Bool
  approved : Bool
  revealed : Bool
  referencePrice : Nat
  timestamp : Nat
  deriving DecidableEq, Repr

/-- Zero-initialised `ConfidentialRequest`. -/
def emptyConfidentialRequest : ConfidentialRequest :=
  { intentHash := Bytes32.raw 0, requester := 0, fulfilled := false,
    approved := false, revealed := false, referencePrice := 0, timestamp := 0 }

/-- Storage struct `AgentReview` of the contract; ratings are `uint8`. -/
structure AgentReview where
  requestId : Bytes32
  reviewer : Address
  qualityRating : Nat
  deliveryRating : Nat
  valueRating : Nat
  comment : String
  timestamp : Nat
  deriving DecidableEq, Repr

/-- Zero-initialised `AgentReview`. -/
def emptyAgentReview : AgentReview :=
  { requestId := Bytes32.raw 0, reviewer := 0, qualityRating := 0,
    deliveryRating := 0, valueRating := 0, comment := "", timestamp := 0 }

/-- Events emitted by the contract, in emission order. -/
inductive Event where
  | PurchaseRequested : Bytes32 → String → Nat → String → Address → Event
  | ConfidentialPurchaseRequested : Bytes32 → Bytes32 → Address → Event
  | ConfidentialPurchaseRevealed : Bytes32 → String → Nat → String → Event
  | PurchaseApproved : Bytes32 → Nat → Event
  | PurchaseRejected : Bytes32 → Nat → String → Event
  | ReviewSubmitted : Bytes32 → String → String → Nat → Nat → Nat → Address → Event
  deriving DecidableEq, Repr

/-- Custom errors declared by the contract. -/
inductive ContractError where
  | Unauthorized
  | AlreadyFulfilled
  | NotApproved
  | AlreadyReviewed
  | InvalidRating
  | InvalidReveal
  | AlreadyRevealed
  deriving DecidableEq, Repr

/-- Pointwise update of a total map, modelling assignment into a Solidity
mapping. -/
def updMap {κ α : Type} [DecidableEq κ] (m : κ → α) (k : κ) (v : α) : κ → α :=
  fun k2 => if k2 = k then v else m k2

/-- Full contract storage plus the emitted event log. -/
structure GuardState where
  requests : Bytes32 → PurchaseRequest
  confidentialRequests : Bytes32 → ConfidentialRequest
  reviews : Bytes32 → AgentReview
  itemReviews : String → List Bytes32
  sellerReviews : String → List Bytes32
  oracle : Address
  owner : Address
  nonce : Nat
  events : List Event

/-- Constructor: `oracle = _oracle`, `owner = msg.sender`, all mappings and
the nonce zero-initialised. -/
def initialState (deployer oracleAddr : Address) : GuardState :=
  { requests := fun _ => emptyPurchaseRequest,
    confidentialRequests := fun _ => emptyConfidentialRequest,
    reviews := fun _ => emptyAgentReview,
    itemReviews := fun _ => [],
    sellerReviews := fun _ => [],
    oracle := oracleAddr,
    owner := deployer,
    nonce := 0,
    events := [] }

/-- Function `requestPurchase`: always succeeds, allocates
`keccak256(itemId, proposedPrice, sellerId, msg.sender, block.timestamp,
_nonce++)` as the id, stores the fresh request and emits
`PurchaseRequested`. -/
def requestPurchase (sender timestamp : Nat) (itemId : String)
    (proposedPrice : Nat) (sellerId : String) (s : GuardState) :
    Bytes32 × GuardState :=
  let requestId := Bytes32.hashReq itemId proposedPrice sellerId sender timestamp s.nonce
  let req : PurchaseRequest :=
    { itemId := itemId, proposedPrice := proposedPrice, sellerId := sellerId,
      requester := sender, fulfilled := false, approved := false,
      referencePrice := 0, timestamp := timestamp }
  (requestId,
    { s with
      requests := updMap s.requests requestId req,
      nonce := s.nonce + 1,
      events := s.events ++
        [Event.PurchaseRequested requestId itemId proposedPrice sellerId sender] })

/-- Function `requestConfidentialPurchase`: stores only the opaque
commitment hash. -/
def requestConfidentialPurchase (sender timestamp : Nat) (intentHash : Bytes32)
    (s : GuardState) : Bytes32 × GuardState :=
  let requestId := Bytes32.hashConf intentHash sender timestamp s.nonce
  let req : ConfidentialRequest :=
    { intentHash := intentHash, requester := sender, fulfilled := false,
      approved := false, revealed := false, referencePrice := 0,
      timestamp := timestamp }
  (requestId,
    { s with
      confidentialRequests := updMap s.confidentialRequests requestId req,
      nonce := s.nonce + 1,
      events := s.events ++
        [Event.ConfidentialPurchaseRequested requestId intentHash sender] })

/-- Function `fulfillConfidentialDecision` (oracle only). -/
def fulfillConfidentialDecision (sender : Address) (requestId : Bytes32)
    (approved : Bool) (referencePrice : Nat) (s : GuardState) :
    Except ContractError GuardState :=
  if sender ≠ s.oracle then .error .Unauthorized
  else
    let req := s.confidentialRequests requestId
    if req.fulfilled then .error .AlreadyFulfilled
    else
      let req2 := { req with fulfilled := true, approved := approved,
                             referencePrice := referencePrice }
      let ev := if approved then Event.PurchaseApproved requestId referencePrice
        else Event.PurchaseRejected requestId referencePrice
          "Confidential evaluation failed"
      .ok { s with
        confidentialRequests := updMap s.confidentialRequests requestId req2,
        events := s.events ++ [ev] }

/-- Function `revealPurchase`: requester-only reveal of a confidential
request, checked against the stored commitment. -/
def revealPurchase (sender : Address) (requestId : Bytes32) (itemId : String)
    (proposedPrice : Nat) (sellerId : String) (salt : Bytes32)
    (s : GuardState) : Except ContractError GuardState :=
  let req := s.confidentialRequests requestId
  if req.requester ≠ sender then .error .Unauthorized
  else if req.revealed then .error .AlreadyRevealed
  else
    let computed := Bytes32.hashIntent itemId proposedPrice sellerId salt
    if computed ≠ req.intentHash then .error .InvalidReveal
    else
      .ok { s with
        confidentialRequests := updMap s.confidentialRequests requestId
          { req with revealed := true },
        events := s.events ++
          [Event.ConfidentialPurchaseRevealed requestId itemId proposedPrice sellerId] }

/-- Function `fulfillOracleDecision` (oracle only): marks the request
fulfilled, records the verdict, and emits an approval or rejection event
with the price/trust display reason. -/
def fulfillOracleDecision (sender : Address) (requestId : Bytes32)
    (approved : Bool) (referencePrice : Nat) (s : GuardState) :
    Except ContractError GuardState :=
  if sender ≠ s.oracle then .error .Unauthorized
  else
    let req := s.requests requestId
    if req.fulfilled then .error .AlreadyFulfilled
    else
      let req2 := { req with fulfilled := true, approved := approved,
                             referencePrice := referencePrice }
      let ev := if approved then Event.PurchaseApproved requestId referencePrice
        else Event.PurchaseRejected requestId referencePrice
          (if req.proposedPrice > referencePrice * 110 / 100
            then "Price exceeds market value"
            else "Seller trust score too low")
      .ok { s with
        requests := updMap s.requests requestId req2,
        events := s.events ++ [ev] }

/-- Function `submitReview`: requester-only post-purchase feedback, gated on
approval, on review uniqueness and on ratings lying in `[1,5]`. -/
def submitReview (sender timestamp : Nat) (requestId : Bytes32)
    (qualityRating deliveryRating valueRating : Nat) (comment : String)
    (s : GuardState) : Except ContractError GuardState :=
  let req := s.requests requestId
  if req.requester ≠ sender then .error .Unauthorized
  else if !req.approved then .error .NotApproved
  else if (s.reviews requestId).timestamp ≠ 0 then .error .AlreadyReviewed
  else if qualityRating < 1 ∨ qualityRating > 5 ∨ deliveryRating < 1 ∨
      deliveryRating > 5 ∨ valueRating < 1 ∨ valueRating > 5 then
    .error .InvalidRating
  else
    .ok { s with
      reviews := updMap s.reviews requestId
        { requestId := requestId, reviewer := sender,
          qualityRating := qualityRating, deliveryRating := deliveryRating,
          valueRating := valueRating, comment := comment,
          timestamp := timestamp },
      itemReviews := updMap s.itemReviews req.itemId
        (s.itemReviews req.itemId ++ [requestId]),
      sellerReviews := updMap s.sellerReviews req.sellerId
        (s.sellerReviews req.sellerId ++ [requestId]),
      events := s.events ++
        [Event.ReviewSubmitted requestId req.itemId req.sellerId
          qualityRating deliveryRating valueRating sender] }

/-- Function `setOracle` (owner only). -/
def setOracle (sender newOracle : Address) (s : GuardState) :
    Except ContractError GuardState :=
  if sender ≠ s.owner then .error .Unauthorized
  else .ok { s with oracle := newOracle }

/-- View function `getRequest`. -/
def getRequest (s : GuardState) (requestId : Bytes32) : PurchaseRequest :=
  s.requests requestId

/-- View function `getConfidentialRequest`. -/
def getConfidentialRequest (s : GuardState) (requestId : Bytes32) :
    ConfidentialRequest :=
  s.confidentialRequests requestId

/-- View function `getReview`. -/
def getReview (s : GuardState) (requestId : Bytes32) : AgentReview :=
  s.reviews requestId

/-- External transactions against the contract, used to speak about
arbitrary sequences of ledger operations. -/
inductive Action where
  | requestPurchase (sender timestamp : Nat) (itemId : String)
      (proposedPrice : Nat) (sellerId : String)
  | requestConfidentialPurchase (sender timestamp : Nat) (intentHash : Bytes32)
  | fulfillOracleDecision (sender : Address) (requestId : Bytes32)
      (approved : Bool) (referencePrice : Nat)
  | fulfillConfidentialDecision (sender : Address) (requestId : Bytes32)
      (approved : Bool) (referencePrice : Nat)
  | revealPurchase (sender : Address) (requestId : Bytes32) (itemId : String)
      (proposedPrice : Nat) (sellerId : String) (salt : Bytes32)
  | submitReview (sender timestamp : Nat) (requestId : Bytes32)
      (qualityRating deliveryRating valueRating : Nat) (comment : String)
  | setOracle (sender newOracle : Address)

/-- Transaction semantics: a reverting call leaves the storage unchanged
(Solidity rolls back every write of a reverted call). -/
def execA (a : Action) (s : GuardState) : GuardState :=
  match a with
  | .requestPurchase sender t i p sl => (requestPurchase sender t i p sl s).2
  | .requestConfidentialPurchase sender t h =>
      (requestConfidentialPurchase sender t h s).2
  | .fulfillOracleDecision sender id ap rp =>
      match fulfillOracleDecision sender id ap rp s with
      | .ok s2 => s2
      | .error _ => s
  | .fulfillConfidentialDecision sender id ap rp =>
      match fulfillConfidentialDecision sender id ap rp s with
      | .ok s2 => s2
      | .error _ => s
  | .revealPurchase sender id i p sl salt =>
      match revealPurchase sender id i p sl salt s with
      | .ok s2 => s2
      | .error _ => s
  | .submitReview sender t id q d v c =>
      match submitReview sender t id q d v c s with
      | .ok s2 => s2
      | .error _ => s
  | .setOracle sender o =>
      match setOracle sender o s with
      | .ok s2 => s2
      | .error _ => s

end PurchaseGuard

namespace DecisionEngine

/-- JavaScript `Math.round`: round half toward positive infinity. -/
def jsRound (x : ℚ) : ℤ := ⌊x + 1 / 2⌋

/-- JavaScript `(+x.toFixed(n))`: round to `n` decimal places. -/
def roundTo (n : Nat) (x : ℚ) : ℚ := (⌊x * 10 ^ n + 1 / 2⌋ : ℚ) / 10 ^ n

/-- Helper `clamp(val, min, max) = Math.max(min, Math.min(max, val))` of the
decision-engine server. -/
def clamp (val lo hi : ℚ) : ℚ := max lo (min hi val)

/-- Helper `median` of the decision-engine server: sort ascending and take
the element at index `Math.floor(length / 2)`. -/
def median (l : List ℚ) : ℚ :=
  let sorted := List.insertionSort (· ≤ ·) l
  sorted.getD (sorted.length / 2) 0

/-- Median as the spec reads it: the LOWER of the two middle elements of the
ascending sort for even counts (and the true middle for odd counts). -/
def medianLowerSpec (l : List ℚ) : ℚ :=
  let sorted := List.insertionSort (· ≤ ·) l
  sorted.getD ((sorted.length - 1) / 2) 0

/-- Input record of `calculateValueScore`. -/
structure ScoreInput where
  proposedPrice : ℚ
  referencePrice : ℚ
  rating : ℚ
  reviewCount : ℚ
  returnRate : ℚ
  sellerScoreVal : ℚ
  deriving DecidableEq, Repr

/-- Rounded sub-score breakdown returned alongside the value score. -/
structure Breakdown where
  priceFairness : ℤ
  qualitySignal : ℤ
  sellerTrust : ℤ
  valueRatio : ℤ
  deriving DecidableEq, Repr

/-- Result of `calculateValueScore`. -/
structure ScoreResult where
  valueScore : ℚ
  breakdown : Breakdown
  deriving DecidableEq, Repr

/-- Function `calculateValueScore` of the decision-engine server: four
sub-scores blended with weights 0.35 / 0.25 / 0.25 / 0.15, rounded and
clamped to `[0, 100]`. -/
def calculateValueScore (inp : ScoreInput) : ScoreResult :=
  let priceRatio := inp.referencePrice / max inp.proposedPrice 1
  let priceFairness := clamp (priceRatio * 100) 0 100
  let ratingScore := inp.rating / 5 * 50
  let reviewScore := clamp (inp.reviewCount / 10000) 0 1 * 30
  let returnScore := clamp ((20 - inp.returnRate) / 20) 0 1 * 20
  let qualitySignal := ratingScore + reviewScore + returnScore
  let sellerTrust := inp.sellerScoreVal * 100
  let qualityPerDollar := inp.rating * 20 / (inp.proposedPrice / inp.referencePrice)
  let valueRatio := clamp qualityPerDollar 0 100
  let raw := priceFairness * (35 / 100) + qualitySignal * (25 / 100) +
    sellerTrust * (25 / 100) + valueRatio * (15 / 100)
  { valueScore := clamp ((jsRound raw : ℚ)) 0 100,
    breakdown :=
      { priceFairness := jsRound priceFairness,
        qualitySignal := jsRound qualitySignal,
        sellerTrust := jsRound sellerTrust,
        valueRatio := jsRound valueRatio } }

/-- Three-way verdict of the decision engine. -/
inductive Verdict where
  | APPROVE
  | CAUTION
  | REJECT
  deriving DecidableEq, Repr

/-- Product quality record returned by the marketplace A adapter. -/
structure ProductData where
  rating : ℚ
  reviewCount : ℚ
  returnRate : ℚ
  deriving DecidableEq, Repr

/-- Decision returned by `POST /evaluate` (the fields the claims are
about). -/
structure Decision where
  approved : Bool
  verdict : Verdict
  valueScore : ℚ
  referencePrice : ℚ
  breakdown : Breakdown
  deriving DecidableEq, Repr

/-- Client and availability errors of `POST /evaluate`. -/
inductive EvalError where
  | MissingFields
  | NegativePrice
  | ItemNotFound
  deriving DecidableEq, Repr

/-- Decidable equality for `Except`, used to evaluate concrete runs of the
engine inside witnesses. -/
instance {e a : Type} [DecidableEq e] [DecidableEq a] :
    DecidableEq (Except e a)
  | .ok x, .ok y =>
      if h : x = y then .isTrue (by rw [h])
      else .isFalse (by intro hc; cases hc; exact h rfl)
  | .ok _, .error _ => .isFalse (by intro hc; cases hc)
  | .error _, .ok _ => .isFalse (by intro hc; cases hc)
  | .error x, .error y =>
      if h : x = y then .isTrue (by rw [h])
      else .isFalse (by intro hc; cases hc; exact h rfl)

/-- Scoring core of `POST /evaluate`: filter unavailable sources (price 0),
fail when none remain, take the median as reference price, compute the value
score, apply the hard seller-trust floor `score < 0.4` and derive the
verdict. -/
def evaluateCore (scoredPrice priceA priceB priceC : ℚ)
    (product : ProductData) (sellerScoreVal : ℚ) : Except EvalError Decision :=
  let sourcePrices := [priceA, priceB, priceC].filter (fun p => 0 < p)
  if sourcePrices = [] then .error .ItemNotFound
  else
    let referencePrice := median sourcePrices
    let r := calculateValueScore
      { proposedPrice := scoredPrice, referencePrice := referencePrice,
        rating := product.rating, reviewCount := product.reviewCount,
        returnRate := product.returnRate, sellerScoreVal := sellerScoreVal }
    let sellerBlocked : Bool := decide (sellerScoreVal < 2 / 5)
    let approved : Bool := !sellerBlocked && decide ((70 : ℚ) ≤ r.valueScore)
    let verdict := if approved then Verdict.APPROVE
      else if (40 : ℚ) ≤ r.valueScore then Verdict.CAUTION
      else Verdict.REJECT
    .ok { approved := approved, verdict := verdict, valueScore := r.valueScore,
          referencePrice := referencePrice, breakdown := r.breakdown }

/-- Handler `POST /evaluate` of the decision-engine server: validates the
price, then runs the scoring core on the raw proposed price. -/
def evaluate (price priceA priceB priceC : ℚ) (product : ProductData)
    (sellerScoreVal : ℚ) : Except EvalError Decision :=
  if price < 0 then .error .NegativePrice
  else evaluateCore price priceA priceB priceC product sellerScoreVal

/-- Deal metadata record of the marketplace A adapter. -/
structure Deal where
  cashback : ℚ
  coupon : ℚ
  shippingFee : ℚ
  deriving DecidableEq, Repr

/-- Function `getDealData` of the marketplace A adapter: the hard-coded deal
table with the all-zero default for unknown items. -/
def getDealData (itemId : String) : Deal :=
  if itemId = "laptop-001" then { cashback := 52, coupon := 0, shippingFee := 0 }
  else if itemId = "phone-001" then { cashback := 0, coupon := 40, shippingFee := 0 }
  else if itemId = "headphones-001" then { cashback := 14, coupon := 0, shippingFee := 8 }
  else if itemId = "tablet-001" then { cashback := 0, coupon := 0, shippingFee := 15 }
  else if itemId = "watch-001" then { cashback := 0, coupon := 25, shippingFee := 12 }
  else if itemId = "cable-001" then { cashback := 0, coupon := 0, shippingFee := 5 }
  else { cashback := 0, coupon := 0, shippingFee := 0 }

/-- Modelled from the spec: the final decision-engine server is absent from
the sources (only its callers survive: README.md documents
`effectivePrice = proposedPrice - cashback - coupon + shippingFee`,
`scripts/simulate.js` and the CRE workflow read `effectivePrice` from the
response). It computes the effective price from the item's deal metadata
(`getDealData`, present in the sources) and feeds the effective price, not
the raw proposed price, into the scoring core. -/
def evaluateWithDeals (itemId : String) (price priceA priceB priceC : ℚ)
    (product : ProductData) (sellerScoreVal : ℚ) :
    Except EvalError (ℚ × Decision) :=
  if price < 0 then .error .NegativePrice
  else
    let deal := getDealData itemId
    let effectivePrice := price - deal.cashback - deal.coupon + deal.shippingFee
    (evaluateCore effectivePrice priceA priceB priceC product sellerScoreVal).map
      (fun dec => (effectivePrice, dec))

end DecisionEngine

namespace SellerScore

open DecisionEngine (roundTo)

/-- One stored agent review of the seller reputation service. -/
structure ReviewEntry where
  quality : ℚ
  delivery : ℚ
  value : ℚ
  item : String
  deriving DecidableEq, Repr

/-- Hard-coded `agentReviews` table of the seller reputation service. -/
def agentReviews (sellerId : String) : List ReviewEntry :=
  if sellerId = "seller-42" then
    [{ quality := 5, delivery := 4, value := 5, item := "laptop-001" },
     { quality := 4, delivery := 5, value := 4, item := "headphones-001" },
     { quality := 5, delivery := 5, value := 5, item := "phone-001" }]
  else if sellerId = "seller-100" then
    [{ quality := 5, delivery := 5, value := 5, item := "headphones-001" },
     { quality := 4, delivery := 4, value := 4, item := "tablet-001" }]
  else if sellerId = "seller-99" then
    [{ quality := 2, delivery := 1, value := 1, item := "laptop-001" }]
  else []

/-- Hard-coded `sellers` base reputation table, with the neutral
`DEFAULT_SELLER = { score: 0.5, totalSales: 0 }` for unknown sellers. -/
def sellersBase (sellerId : String) : ℚ × Nat :=
  if sellerId = "seller-42" then (85 / 100, 1240)
  else if sellerId = "seller-99" then (30 / 100, 45)
  else if sellerId = "seller-100" then (92 / 100, 3500)
  else if sellerId = "seller-200" then (15 / 100, 12)
  else (1 / 2, 0)

/-- Aggregate review statistics returned by `getReviewStats`. -/
structure ReviewStats where
  count : Nat
  avgQuality : ℚ
  avgDelivery : ℚ
  avgValue : ℚ
  overall : ℚ
  deriving DecidableEq, Repr

/-- Function `getReviewStats`: `none` when the seller has no reviews,
otherwise per-dimension averages and the overall average, each rounded to
two decimals by `toFixed(2)`. -/
def getReviewStats (sellerId : String) : Option ReviewStats :=
  let reviews := agentReviews sellerId
  if reviews = [] then none
  else
    let n : ℚ := reviews.length
    let avgQ := (reviews.map (·.quality)).sum / n
    let avgD := (reviews.map (·.delivery)).sum / n
    let avgV := (reviews.map (·.value)).sum / n
    some { count := reviews.length,
           avgQuality := roundTo 2 avgQ,
           avgDelivery := roundTo 2 avgD,
           avgValue := roundTo 2 avgV,
           overall := roundTo 2 ((avgQ + avgD + avgV) / 3) }

/-- Blend weight `reviewWeight = Math.min(count * 0.1, 0.3)` of `getScore`. -/
def blendWeight (count : Nat) : ℚ := min ((count : ℚ) * (1 / 10)) (3 / 10)

/-- Result record of `getScore`. -/
structure SellerResult where
  score : ℚ
  totalSales : Nat
  reviewStats : Option ReviewStats
  deriving DecidableEq, Repr

/-- Function `getScore` of the seller reputation service: the stored
baseline, blended with the normalised overall review score at the capped
weight when at least one review exists, with the final value rounded to
three decimals by `toFixed(3)`. -/
def getScore (sellerId : String) : SellerResult :=
  let base := sellersBase sellerId
  let stats := getReviewStats sellerId
  let finalScore :=
    match stats with
    | some st =>
        if 1 ≤ st.count then
          let reviewScore := st.overall / 5
          let reviewWeight := blendWeight st.count
          base.1 * (1 - reviewWeight) + reviewScore * reviewWeight
        else base.1
    | none => base.1
  { score := roundTo 3 finalScore, totalSales := base.2, reviewStats := stats }

end SellerScore

namespace PurchaseGuard

/-- Reading an updated mapping at the written key yields the written value. -/
theorem updMap_same {κ α : Type} [DecidableEq κ] (m : κ → α) (k : κ) (v : α) :
    updMap m k v k = v := by
  simp [updMap]

/-- Reading an updated mapping at another key is unchanged. -/
theorem updMap_other {κ α : Type} [DecidableEq κ] (m : κ → α) (k k2 : κ)
    (v : α) (h : k2 ≠ k) : updMap m k v k2 = m k2 := by
  simp [updMap, h]

/-- Characterisation of a successful `fulfillOracleDecision` call: the
caller was the oracle, the request was pending, and afterwards the request
carries `fulfilled = true` with the supplied verdict while the rest of the
request mapping, the oracle and the owner are untouched. -/
theorem fulfill_ok_facts {s s' : GuardState} {sender : Address}
    {id : Bytes32} {ap : Bool} {rp : Nat}
    (h : fulfillOracleDecision sender id ap rp s = .ok s') :
    sender = s.oracle ∧ (s.requests id).fulfilled = false ∧
    s'.oracle = s.oracle ∧ s'.owner = s.owner ∧
    s'.requests id = { (s.requests id) with
                        fulfilled := true,
                        approved := ap,
                        referencePrice := rp } ∧
    (∀ id2, id2 ≠ id → s'.requests id2 = s.requests id2) ∧
    s'.confidentialRequests = s.confidentialRequests ∧
    s'.reviews = s.reviews := by
  simp only [fulfillOracleDecision] at h
  by_cases h1 : sender ≠ s.oracle
  · rw [if_pos h1] at h
    cases h
  · rw [if_neg h1] at h
    by_cases h2 : (s.requests id).fulfilled = true
    · rw [if_pos h2] at h
      cases h
    · rw [if_neg h2] at h
      rw [Except.ok.injEq] at h
      subst h
      refine ⟨not_ne_iff.mp h1, Bool.eq_false_iff.mpr fun hc => h2 hc, rfl,
        rfl, updMap_same _ _ _, fun id2 hne => updMap_other _ _ _ _ hne, rfl, rfl⟩

/-- Behaviour of `fulfillOracleDecision` on an already fulfilled request:
`Unauthorized` for a non-oracle caller, `AlreadyFulfilled` for the oracle. -/
theorem fulfill_on_fulfilled {s : GuardState} {id : Bytes32}
    (hful : (s.requests id).fulfilled = true) (sender : Address) (ap : Bool)
    (rp : Nat) :
    fulfillOracleDecision sender id ap rp s =
      if sender = s.oracle then .error .AlreadyFulfilled
      else .error .Unauthorized := by
  by_cases h1 : sender = s.oracle
  · simp [fulfillOracleDecision, hful, h1]
  · simp [fulfillOracleDecision, hful, h1]

/-- C1: once `fulfillOracleDecision` has succeeded on a request id, a later
`fulfillOracleDecision` on the same id fails — with `AlreadyFulfilled` for
the authorized oracle caller (and `Unauthorized` for any other caller) — and
the reverted transaction leaves the whole storage, in particular every
stored field of the request, unchanged. -/
theorem fulfillOracleDecision_at_most_once
    (s : GuardState) (sender : Address) (id : Bytes32) (ap : Bool) (rp : Nat)
    (s' : GuardState)
    (h : fulfillOracleDecision sender id ap rp s = .ok s')
    (sender2 : Address) (ap2 : Bool) (rp2 : Nat) :
    (sender2 = s'.oracle →
      fulfillOracleDecision sender2 id ap2 rp2 s' = .error .AlreadyFulfilled) ∧
    (sender2 ≠ s'.oracle →
      fulfillOracleDecision sender2 id ap2 rp2 s' = .error .Unauthorized) ∧
    execA (.fulfillOracleDecision sender2 id ap2 rp2) s' = s' ∧
    getRequest (execA (.fulfillOracleDecision sender2 id ap2 rp2) s') id =
      getRequest s' id := by
  obtain ⟨-, -, hor, -, hreq, -, -, -⟩ := fulfill_ok_facts h
  have hful : (s'.requests id).fulfilled = true := by rw [hreq]
  have hsecond := fulfill_on_fulfilled hful sender2 ap2 rp2
  have hexec : execA (.fulfillOracleDecision sender2 id ap2 rp2) s' = s' := by
    simp only [execA]
    rw [hsecond]
    by_cases h1 : sender2 = s'.oracle
    · rw [if_pos h1]
    · rw [if_neg h1]
  refine ⟨fun h2 => ?_, fun h2 => ?_, hexec, by rw [hexec]⟩
  · rw [hsecond, if_pos h2]
  · rw [hsecond, if_neg h2]

/-- Characterisation of a successful `fulfillConfidentialDecision` call. -/
theorem fulfillConf_ok_facts {s s2 : GuardState} {sender : Address}
    {id : Bytes32} {ap : Bool} {rp : Nat}
    (h : fulfillConfidentialDecision sender id ap rp s = .ok s2) :
    sender = s.oracle ∧ (s.confidentialRequests id).fulfilled = false ∧
    s2.requests = s.requests ∧ s2.reviews = s.reviews ∧
    s2.oracle = s.oracle ∧
    s2.confidentialRequests id = { (s.confidentialRequests id) with
                                    fulfilled := true,
                                    approved := ap,
                                    referencePrice := rp } ∧
    (∀ id2, id2 ≠ id →
      s2.confidentialRequests id2 = s.confidentialRequests id2) := by
  simp only [fulfillConfidentialDecision] at h
  by_cases h1 : sender ≠ s.oracle
  · rw [if_pos h1] at h
    cases h
  · rw [if_neg h1] at h
    by_cases h2 : (s.confidentialRequests id).fulfilled = true
    · rw [if_pos h2] at h
      cases h
    · rw [if_neg h2] at h
      rw [Except.ok.injEq] at h
      subst h
      refine ⟨not_ne_iff.mp h1, Bool.eq_false_iff.mpr fun hc => h2 hc, rfl, rfl,
        rfl, updMap_same _ _ _, fun id2 hne => updMap_other _ _ _ _ hne⟩

/-- Characterisation of a successful `revealPurchase` call. -/
theorem reveal_ok_facts {s s2 : GuardState} {sender : Address} {id : Bytes32}
    {i : String} {p : Nat} {sl : String} {salt : Bytes32}
    (h : revealPurchase sender id i p sl salt s = .ok s2) :
    (s.confidentialRequests id).requester = sender ∧
    (s.confidentialRequests id).revealed = false ∧
    Bytes32.hashIntent i p sl salt = (s.confidentialRequests id).intentHash ∧
    s2.requests = s.requests ∧ s2.reviews = s.reviews ∧
    s2.confidentialRequests id = { (s.confidentialRequests id) with
                                    revealed := true } ∧
    (∀ id2, id2 ≠ id →
      s2.confidentialRequests id2 = s.confidentialRequests id2) := by
  simp only [revealPurchase] at h
  by_cases h1 : (s.confidentialRequests id).requester ≠ sender
  · rw [if_pos h1] at h
    cases h
  · rw [if_neg h1] at h
    by_cases h2 : (s.confidentialRequests id).revealed = true
    · rw [if_pos h2] at h
      cases h
    · rw [if_neg h2] at h
      by_cases h3 : Bytes32.hashIntent i p sl salt ≠
          (s.confidentialRequests id).intentHash
      · rw [if_pos h3] at h
        cases h
      · rw [if_neg h3] at h
        rw [Except.ok.injEq] at h
        subst h
        refine ⟨not_ne_iff.mp h1, Bool.eq_false_iff.mpr fun hc => h2 hc,
          not_ne_iff.mp h3, rfl, rfl, updMap_same _ _ _,
          fun id2 hne => updMap_other _ _ _ _ hne⟩

/-- Characterisation of a successful `submitReview` call. -/
theorem submitReview_ok_facts {s s2 : GuardState} {sender t : Nat}
    {id : Bytes32} {q d v : Nat} {c : String}
    (h : submitReview sender t id q d v c s = .ok s2) :
    (s.requests id).requester = sender ∧ (s.requests id).approved = true ∧
    (s.reviews id).timestamp = 0 ∧
    (1 ≤ q ∧ q ≤ 5 ∧ 1 ≤ d ∧ d ≤ 5 ∧ 1 ≤ v ∧ v ≤ 5) ∧
    s2.requests = s.requests ∧
    s2.confidentialRequests = s.confidentialRequests ∧
    s2.reviews id = { requestId := id,
                      reviewer := sender,
                      qualityRating := q,
                      deliveryRating := d,
                      valueRating := v,
                      comment := c,
                      timestamp := t } ∧
    s2.itemReviews (s.requests id).itemId =
      s.itemReviews (s.requests id).itemId ++ [id] ∧
    s2.sellerReviews (s.requests id).sellerId =
      s.sellerReviews (s.requests id).sellerId ++ [id] := by
  simp only [submitReview] at h
  by_cases h1 : (s.requests id).requester ≠ sender
  · rw [if_pos h1] at h
    cases h
  · rw [if_neg h1] at h
    by_cases h2 : (s.requests id).approved = true
    · rw [h2] at h
      simp only [Bool.not_true, Bool.false_eq_true, if_false] at h
      by_cases h3 : (s.reviews id).timestamp ≠ 0
      · rw [if_pos h3] at h
        cases h
      · rw [if_neg h3] at h
        by_cases h4 : q < 1 ∨ q > 5 ∨ d < 1 ∨ d > 5 ∨ v < 1 ∨ v > 5
        · rw [if_pos h4] at h
          cases h
        · rw [if_neg h4] at h
          rw [Except.ok.injEq] at h
          subst h
          push_neg at h4
          obtain ⟨hq1, hq2, hd1, hd2, hv1, hv2⟩ := h4
          exact ⟨not_ne_iff.mp h1, h2, not_ne_iff.mp h3,
            ⟨hq1, hq2, hd1, hd2, hv1, hv2⟩, rfl, rfl, updMap_same _ _ _,
            updMap_same _ _ _, updMap_same _ _ _⟩
    · rw [Bool.eq_false_iff.mpr fun hc => h2 hc] at h
      simp only [Bool.not_false, if_true] at h
      cases h

/-- Witness for C1: in a concrete ledger, fulfill a freshly created request,
then check a second oracle call on the same id fails with
`AlreadyFulfilled`. -/
theorem fulfillOracleDecision_at_most_once_witness :
    fulfillOracleDecision 2
        (requestPurchase 5 10 "laptop-001" 1100 "seller-42" (initialState 1 2)).1
        false 7
        (execA (.fulfillOracleDecision 2
          (requestPurchase 5 10 "laptop-001" 1100 "seller-42" (initialState 1 2)).1
          true 1095)
          (requestPurchase 5 10 "laptop-001" 1100 "seller-42" (initialState 1 2)).2) =
      .error .AlreadyFulfilled :=
  (fulfillOracleDecision_at_most_once
    (requestPurchase 5 10 "laptop-001" 1100 "seller-42" (initialState 1 2)).2
    2 (requestPurchase 5 10 "laptop-001" 1100 "seller-42" (initialState 1 2)).1
    true 1095 _ rfl 2 false 7).1 rfl

/-- C2: `revealPurchase` by a caller other than the stored requester fails
with `Unauthorized`; by the requester on an already revealed request it
fails with `AlreadyRevealed`; by the requester on an unrevealed request it
succeeds exactly when the commitment hash recomputed from the supplied
`(itemId, proposedPrice, sellerId, salt)` equals the stored `intentHash`;
any single differing field of the committed tuple yields `InvalidReveal`
(ideal collision-free hash); and a reveal after a successful reveal fails
with `AlreadyRevealed`. -/
theorem revealPurchase_commitment_check
    (s : GuardState) (sender : Address) (id : Bytes32) (i : String) (p : Nat)
    (sl : String) (salt : Bytes32) :
    ((s.confidentialRequests id).requester ≠ sender →
      revealPurchase sender id i p sl salt s = .error .Unauthorized) ∧
    ((s.confidentialRequests id).requester = sender →
      (s.confidentialRequests id).revealed = true →
      revealPurchase sender id i p sl salt s = .error .AlreadyRevealed) ∧
    ((s.confidentialRequests id).requester = sender →
      (s.confidentialRequests id).revealed = false →
      ((∃ s2, revealPurchase sender id i p sl salt s = .ok s2) ↔
        Bytes32.hashIntent i p sl salt =
          (s.confidentialRequests id).intentHash)) ∧
    (∀ i0 p0 sl0 salt0,
      (s.confidentialRequests id).intentHash =
        Bytes32.hashIntent i0 p0 sl0 salt0 →
      (s.confidentialRequests id).requester = sender →
      (s.confidentialRequests id).revealed = false →
      (i ≠ i0 ∨ p ≠ p0 ∨ sl ≠ sl0 ∨ salt ≠ salt0) →
      revealPurchase sender id i p sl salt s = .error .InvalidReveal) ∧
    (∀ s2, revealPurchase sender id i p sl salt s = .ok s2 →
      revealPurchase sender id i p sl salt s2 = .error .AlreadyRevealed) := by
  refine ⟨?_, ?_, ?_, ?_, ?_⟩
  · intro h1
    simp only [revealPurchase]
    rw [if_pos h1]
  · intro h1 h2
    simp only [revealPurchase]
    rw [if_neg (not_ne_iff.mpr h1), if_pos h2]
  · intro h1 h2
    constructor
    · intro ⟨s2, hok⟩
      exact (reveal_ok_facts hok).2.2.1
    · intro hhash
      simp only [revealPurchase]
      rw [if_neg (not_ne_iff.mpr h1),
        if_neg (by rw [h2]; exact Bool.false_ne_true),
        if_neg (not_ne_iff.mpr hhash)]
      exact ⟨_, rfl⟩
  · intro i0 p0 sl0 salt0 hstored h1 h2 hdiff
    simp only [revealPurchase]
    rw [if_neg (not_ne_iff.mpr h1),
      if_neg (by rw [h2]; exact Bool.false_ne_true)]
    rw [if_pos ?_]
    rw [hstored]
    intro hc
    obtain ⟨hi, hp, hsl, hsalt⟩ :=
      (Bytes32.hashIntent.injEq _ _ _ _ _ _ _ _).mp hc
    rcases hdiff with h | h | h | h
    · exact h hi
    · exact h hp
    · exact h hsl
    · exact h hsalt
  · intro s2 hok
    obtain ⟨hreq, -, -, -, -, hrec, -⟩ := reveal_ok_facts hok
    simp only [revealPurchase]
    rw [if_neg (not_ne_iff.mpr (by rw [hrec]; exact hreq)),
      if_pos (by rw [hrec])]

/-- Witness for C2: creating a concrete confidential request and revealing
the committed tuple succeeds. -/
theorem revealPurchase_commitment_check_witness :
    ∃ s2, revealPurchase 7
        (requestConfidentialPurchase 7 10
          (Bytes32.hashIntent "item-1" 100 "seller-9" (Bytes32.raw 5))
          (initialState 1 2)).1
        "item-1" 100 "seller-9" (Bytes32.raw 5)
        (requestConfidentialPurchase 7 10
          (Bytes32.hashIntent "item-1" 100 "seller-9" (Bytes32.raw 5))
          (initialState 1 2)).2 = .ok s2 :=
  ((revealPurchase_commitment_check
      (requestConfidentialPurchase 7 10
        (Bytes32.hashIntent "item-1" 100 "seller-9" (Bytes32.raw 5))
        (initialState 1 2)).2
      7
      (requestConfidentialPurchase 7 10
        (Bytes32.hashIntent "item-1" 100 "seller-9" (Bytes32.raw 5))
        (initialState 1 2)).1
      "item-1" 100 "seller-9" (Bytes32.raw 5)).2.2.1 rfl rfl).mpr rfl

/-- C6: `submitReview` fails with `Unauthorized` for a caller other than the
stored requester, with `NotApproved` when the request is not fulfilled and
approved (on states satisfying the approved-implies-fulfilled invariant the
code's `!approved` test is equivalent), with `AlreadyReviewed` when a review
is already stored, with `InvalidRating` when a rating lies outside `[1,5]`,
and on success persists the review and appends the request id to both the
item-indexed and the seller-indexed review lists. -/
theorem submitReview_guards
    (s : GuardState) (sender t : Nat) (id : Bytes32) (q d v : Nat)
    (c : String)
    (hInv : (s.requests id).approved = true → (s.requests id).fulfilled = true) :
    ((s.requests id).requester ≠ sender →
      submitReview sender t id q d v c s = .error .Unauthorized) ∧
    ((s.requests id).requester = sender →
      ¬((s.requests id).fulfilled = true ∧ (s.requests id).approved = true) →
      submitReview sender t id q d v c s = .error .NotApproved) ∧
    ((s.requests id).requester = sender → (s.requests id).approved = true →
      (s.reviews id).timestamp ≠ 0 →
      submitReview sender t id q d v c s = .error .AlreadyReviewed) ∧
    ((s.requests id).requester = sender → (s.requests id).approved = true →
      (s.reviews id).timestamp = 0 →
      (q < 1 ∨ q > 5 ∨ d < 1 ∨ d > 5 ∨ v < 1 ∨ v > 5) →
      submitReview sender t id q d v c s = .error .InvalidRating) ∧
    ((s.requests id).requester = sender → (s.requests id).approved = true →
      (s.reviews id).timestamp = 0 →
      1 ≤ q → q ≤ 5 → 1 ≤ d → d ≤ 5 → 1 ≤ v → v ≤ 5 →
      ∃ s2, submitReview sender t id q d v c s = .ok s2 ∧
        s2.reviews id = { requestId := id,
                          reviewer := sender,
                          qualityRating := q,
                          deliveryRating := d,
                          valueRating := v,
                          comment := c,
                          timestamp := t } ∧
        s2.itemReviews (s.requests id).itemId =
          s.itemReviews (s.requests id).itemId ++ [id] ∧
        s2.sellerReviews (s.requests id).sellerId =
          s.sellerReviews (s.requests id).sellerId ++ [id]) := by
  refine ⟨?_, ?_, ?_, ?_, ?_⟩
  · intro h1
    simp only [submitReview]
    rw [if_pos h1]
  · intro h1 hna
    have hap : (s.requests id).approved = false := by
      cases happ : (s.requests id).approved
      · rfl
      · exact absurd ⟨hInv happ, happ⟩ hna
    simp only [submitReview]
    rw [if_neg (not_ne_iff.mpr h1), hap,
      if_pos (by decide : (!false) = true)]
  · intro h1 h2 h3
    simp only [submitReview]
    rw [if_neg (not_ne_iff.mpr h1), h2,
      if_neg (by decide : ¬((!true) = true)), if_pos h3]
  · intro h1 h2 h3 h4
    simp only [submitReview]
    rw [if_neg (not_ne_iff.mpr h1), h2,
      if_neg (by decide : ¬((!true) = true)), if_neg (not_ne_iff.mpr h3),
      if_pos h4]
  · intro h1 h2 h3 hq1 hq2 hd1 hd2 hv1 hv2
    simp only [submitReview]
    rw [if_neg (not_ne_iff.mpr h1), h2,
      if_neg (by decide : ¬((!true) = true)), if_neg (not_ne_iff.mpr h3),
      if_neg (by omega : ¬(q < 1 ∨ q > 5 ∨ d < 1 ∨ d > 5 ∨ v < 1 ∨ v > 5))]
    exact ⟨_, rfl, updMap_same _ _ _, updMap_same _ _ _, updMap_same _ _ _⟩

/-- Witness for C6: on a concrete fulfilled-and-approved request, a valid
review by the requester is persisted and indexed. -/
theorem submitReview_guards_witness :
    ∃ s2, submitReview 7 11
        (requestPurchase 7 10 "item-1" 100 "seller-9" (initialState 1 2)).1
        5 4 5 "great"
        (execA (.fulfillOracleDecision 2
          (requestPurchase 7 10 "item-1" 100 "seller-9" (initialState 1 2)).1
          true 95)
          (requestPurchase 7 10 "item-1" 100 "seller-9" (initialState 1 2)).2) =
        .ok s2 ∧
      s2.reviews (requestPurchase 7 10 "item-1" 100 "seller-9"
          (initialState 1 2)).1 =
        { requestId := (requestPurchase 7 10 "item-1" 100 "seller-9"
            (initialState 1 2)).1,
          reviewer := 7,
          qualityRating := 5,
          deliveryRating := 4,
          valueRating := 5,
          comment := "great",
          timestamp := 11 } ∧
      s2.itemReviews "item-1" = [(requestPurchase 7 10 "item-1" 100 "seller-9"
        (initialState 1 2)).1] ∧
      s2.sellerReviews "seller-9" =
        [(requestPurchase 7 10 "item-1" 100 "seller-9" (initialState 1 2)).1] :=
  (submitReview_guards
    (execA (.fulfillOracleDecision 2
      (requestPurchase 7 10 "item-1" 100 "seller-9" (initialState 1 2)).1
      true 95)
      (requestPurchase 7 10 "item-1" 100 "seller-9" (initialState 1 2)).2)
    7 11
    (requestPurchase 7 10 "item-1" 100 "seller-9" (initialState 1 2)).1
    5 4 5 "great" (fun _ => rfl)).2.2.2.2
    rfl rfl rfl (by decide) (by decide) (by decide) (by decide) (by decide)
    (by decide)

/-- Invariant of C9: a stored plain purchase request is never approved
without being fulfilled. -/
def ApprovedImpliesFulfilled (s : GuardState) : Prop :=
  ∀ id, (s.requests id).approved = true → (s.requests id).fulfilled = true

/-- C9: the approved-implies-fulfilled invariant holds in the freshly
deployed ledger and is preserved by every ledger operation: requests are
created with both flags false, and the only operation that sets `approved`
(`fulfillOracleDecision`) sets `fulfilled` in the same step. -/
theorem approvedImpliesFulfilled_invariant :
    (∀ deployer oracleAddr,
      ApprovedImpliesFulfilled (initialState deployer oracleAddr)) ∧
    (∀ s a, ApprovedImpliesFulfilled s →
      ApprovedImpliesFulfilled (execA a s)) := by
  constructor
  · intro d o id h
    simp [initialState, emptyPurchaseRequest] at h
  · intro s a hInv
    cases a with
    | requestPurchase sender t i p sl =>
        intro id h
        have h2 : ((requestPurchase sender t i p sl s).2.requests id).approved =
            true := h
        show ((requestPurchase sender t i p sl s).2.requests id).fulfilled = true
        have hreq : (requestPurchase sender t i p sl s).2.requests =
            updMap s.requests (Bytes32.hashReq i p sl sender t s.nonce)
              { itemId := i, proposedPrice := p, sellerId := sl,
                requester := sender, fulfilled := false, approved := false,
                referencePrice := 0, timestamp := t } := rfl
        rw [hreq] at h2 ⊢
        by_cases hid : id = Bytes32.hashReq i p sl sender t s.nonce
        · subst hid
          rw [updMap_same] at h2
          cases h2
        · rw [updMap_other _ _ _ _ hid] at h2 ⊢
          exact hInv id h2
    | requestConfidentialPurchase sender t ih =>
        intro id h
        exact hInv id h
    | fulfillOracleDecision sender id2 ap rp =>
        show ApprovedImpliesFulfilled
          (match fulfillOracleDecision sender id2 ap rp s with
            | .ok s2 => s2
            | .error _ => s)
        cases hres : fulfillOracleDecision sender id2 ap rp s with
        | error e => exact hInv
        | ok s2 =>
            obtain ⟨-, -, -, -, hreq, hother, -, -⟩ := fulfill_ok_facts hres
            intro id h
            by_cases hid : id = id2
            · subst hid
              rw [hreq]
            · rw [hother id hid] at h ⊢
              exact hInv id h
    | fulfillConfidentialDecision sender id2 ap rp =>
        show ApprovedImpliesFulfilled
          (match fulfillConfidentialDecision sender id2 ap rp s with
            | .ok s2 => s2
            | .error _ => s)
        cases hres : fulfillConfidentialDecision sender id2 ap rp s with
        | error e => exact hInv
        | ok s2 =>
            obtain ⟨-, -, hreq, -, -, -, -⟩ := fulfillConf_ok_facts hres
            intro id h
            rw [hreq] at h ⊢
            exact hInv id h
    | revealPurchase sender id2 i p sl salt =>
        show ApprovedImpliesFulfilled
          (match revealPurchase sender id2 i p sl salt s with
            | .ok s2 => s2
            | .error _ => s)
        cases hres : revealPurchase sender id2 i p sl salt s with
        | error e => exact hInv
        | ok s2 =>
            obtain ⟨-, -, -, hreq, -, -, -⟩ := reveal_ok_facts hres
            intro id h
            rw [hreq] at h ⊢
            exact hInv id h
    | submitReview sender t id2 q d v c =>
        show ApprovedImpliesFulfilled
          (match submitReview sender t id2 q d v c s with
            | .ok s2 => s2
            | .error _ => s)
        cases hres : submitReview sender t id2 q d v c s with
        | error e => exact hInv
        | ok s2 =>
            obtain ⟨-, -, -, -, hreq, -, -, -, -⟩ := submitReview_ok_facts hres
            intro id h
            rw [hreq] at h ⊢
            exact hInv id h
    | setOracle sender o =>
        show ApprovedImpliesFulfilled
          (match setOracle sender o s with
            | .ok s2 => s2
            | .error _ => s)
        cases hres : setOracle sender o s with
        | error e => exact hInv
        | ok s2 =>
            simp only [setOracle] at hres
            by_cases h1 : sender ≠ s.owner
            · rw [if_pos h1] at hres
              cases hres
            · rw [if_neg h1] at hres
              rw [Except.ok.injEq] at hres
              subst hres
              exact hInv

/-- Witness for C9: the invariant holds after a request-then-fulfill run
from a concrete fresh ledger. -/
theorem approvedImpliesFulfilled_invariant_witness :
    ApprovedImpliesFulfilled
      (execA (.fulfillOracleDecision 2
          (requestPurchase 5 10 "laptop-001" 1100 "seller-42" (initialState 1 2)).1
          true 1095)
        (execA (.requestPurchase 5 10 "laptop-001" 1100 "seller-42")
          (initialState 1 2))) :=
  approvedImpliesFulfilled_invariant.2 _ _
    (approvedImpliesFulfilled_invariant.2 _ _
      (approvedImpliesFulfilled_invariant.1 1 2))

/-- C10: `fulfillOracleDecision` called by the oracle on an id under which
no request was ever stored does not fail: the default-initialised record has
`fulfilled = false`, so the call succeeds and marks the phantom request
(empty `itemId`, zero `requester`) as fulfilled with the supplied `approved`
flag and `referencePrice`. -/
theorem fulfillOracleDecision_phantom_request
    (s : GuardState) (id : Bytes32) (ap : Bool) (rp : Nat)
    (h : s.requests id = emptyPurchaseRequest) :
    ∃ s2, fulfillOracleDecision s.oracle id ap rp s = .ok s2 ∧
      s2.requests id = { itemId := "",
                         proposedPrice := 0,
                         sellerId := "",
                         requester := 0,
                         fulfilled := true,
                         approved := ap,
                         referencePrice := rp,
                         timestamp := 0 } := by
  have hful : (s.requests id).fulfilled = false := by
    rw [h]
    rfl
  simp only [fulfillOracleDecision]
  rw [if_neg (not_ne_iff.mpr rfl), hful, if_neg (by decide : ¬(false = true))]
  refine ⟨_, rfl, ?_⟩
  show updMap s.requests id _ id = _
  rw [updMap_same, h]
  rfl

/-- Witness for C10: fulfilling a never-created id in the fresh ledger. -/
theorem fulfillOracleDecision_phantom_request_witness :
    ∃ s2, fulfillOracleDecision (initialState 1 2).oracle (Bytes32.raw 77)
        true 999 (initialState 1 2) = .ok s2 ∧
      s2.requests (Bytes32.raw 77) = { itemId := "",
                                       proposedPrice := 0,
                                       sellerId := "",
                                       requester := 0,
                                       fulfilled := true,
                                       approved := true,
                                       referencePrice := 999,
                                       timestamp := 0 } :=
  fulfillOracleDecision_phantom_request (initialState 1 2) (Bytes32.raw 77)
    true 999 rfl

/-- C8: submitting a purchase request and immediately fetching it by the
returned id yields exactly the submitted fields with `fulfilled = false`;
and two `requestPurchase` calls with identical parameters from the same
submitter at the same timestamp return distinct ids (the nonce increments),
with both records retrievable afterwards. -/
theorem requestPurchase_roundtrip_distinct_ids
    (s : GuardState) (sender t : Nat) (i : String) (p : Nat) (sl : String) :
    getRequest (requestPurchase sender t i p sl s).2
        (requestPurchase sender t i p sl s).1 =
      { itemId := i, proposedPrice := p, sellerId := sl, requester := sender,
        fulfilled := false, approved := false, referencePrice := 0,
        timestamp := t } ∧
    (requestPurchase sender t i p sl
        (requestPurchase sender t i p sl s).2).1 ≠
      (requestPurchase sender t i p sl s).1 ∧
    getRequest (requestPurchase sender t i p sl
        (requestPurchase sender t i p sl s).2).2
        (requestPurchase sender t i p sl s).1 =
      { itemId := i, proposedPrice := p, sellerId := sl, requester := sender,
        fulfilled := false, approved := false, referencePrice := 0,
        timestamp := t } ∧
    getRequest (requestPurchase sender t i p sl
        (requestPurchase sender t i p sl s).2).2
        (requestPurchase sender t i p sl
          (requestPurchase sender t i p sl s).2).1 =
      { itemId := i, proposedPrice := p, sellerId := sl, requester := sender,
        fulfilled := false, approved := false, referencePrice := 0,
        timestamp := t } := by
  have hne : Bytes32.hashReq i p sl sender t (s.nonce + 1) ≠
      Bytes32.hashReq i p sl sender t s.nonce := by
    intro hc
    have := (Bytes32.hashReq.injEq _ _ _ _ _ _ _ _ _ _ _ _).mp hc
    omega
  refine ⟨updMap_same _ _ _, hne, ?_, updMap_same _ _ _⟩
  show updMap (updMap s.requests _ _) _ _ _ = _
  have hx : (requestPurchase sender t i p sl s).2.nonce = s.nonce + 1 := rfl
  have hy : (requestPurchase sender t i p sl s).1 =
      Bytes32.hashReq i p sl sender t s.nonce := rfl
  rw [hx, hy, updMap_other _ _ _ _ (Ne.symm hne), updMap_same]

end PurchaseGuard

namespace DecisionEngine

/-- Counterexample for C4: on the even-length price list `[1, 2]` the code's
`median` returns `2`, the UPPER of the two middle elements of the ascending
sort, not the lower one (`1`) that the claim states. -/
theorem median_even_counterexample :
    median [(1 : ℚ), 2] = 2 ∧ medianLowerSpec [(1 : ℚ), 2] = 1 ∧
    median [(1 : ℚ), 2] ≠ medianLowerSpec [(1 : ℚ), 2] := by
  decide

/-- Helper: the element the code's `median` picks sits at index
`length / 2` of the ascending insertion sort. -/
theorem median_mem_of_ne_nil (l : List ℚ) (h : l ≠ []) : median l ∈ l := by
  have hlen : (List.insertionSort (· ≤ ·) l).length = l.length :=
    (List.perm_insertionSort (· ≤ ·) l).length_eq
  have hpos : 0 < l.length := List.length_pos.mpr h
  have hlt : (List.insertionSort (· ≤ ·) l).length / 2 <
      (List.insertionSort (· ≤ ·) l).length := by
    rw [hlen]
    omega
  have hm : median l ∈ List.insertionSort (· ≤ ·) l := by
    rw [median, List.getD_eq_getElem _ _ hlt]
    exact List.getElem_mem _
  exact ((List.perm_insertionSort (· ≤ ·) l).mem_iff).mp hm

/-- C4 (amended): the reference-price `median` of a non-empty list is always
one of the observed prices; for odd counts it coincides with the spec's
lower-middle reading; for even counts it is the element at sorted index
`length / 2`, i.e. the UPPER of the two middle elements (it dominates the
lower-middle element) — never an interpolated value. -/
theorem median_observed_upper_middle (l : List ℚ) (h : l ≠ []) :
    median l ∈ l ∧
    (l.length % 2 = 1 → median l = medianLowerSpec l) ∧
    (l.length % 2 = 0 → medianLowerSpec l ≤ median l) ∧
    (∀ scoredPrice priceA priceB priceC product sellerScoreVal dec,
      evaluateCore scoredPrice priceA priceB priceC product sellerScoreVal =
        .ok dec →
      dec.referencePrice =
        median ([priceA, priceB, priceC].filter (fun x => 0 < x))) := by
  have hlen : (List.insertionSort (· ≤ ·) l).length = l.length :=
    (List.perm_insertionSort (· ≤ ·) l).length_eq
  have hpos : 0 < l.length := List.length_pos.mpr h
  refine ⟨median_mem_of_ne_nil l h, ?_, ?_, ?_⟩
  · intro hodd
    have hidx : ((List.insertionSort (· ≤ ·) l).length - 1) / 2 =
        (List.insertionSort (· ≤ ·) l).length / 2 := by
      rw [hlen]
      omega
    rw [median, medianLowerSpec, hidx]
  · intro heven
    have h2 : 2 ≤ l.length := by omega
    have hltU : (List.insertionSort (· ≤ ·) l).length / 2 <
        (List.insertionSort (· ≤ ·) l).length := by
      rw [hlen]
      omega
    have hltL : ((List.insertionSort (· ≤ ·) l).length - 1) / 2 <
        (List.insertionSort (· ≤ ·) l).length := by
      rw [hlen]
      omega
    rw [median, medianLowerSpec, List.getD_eq_getElem _ _ hltU,
      List.getD_eq_getElem _ _ hltL]
    have hsorted : List.Sorted (· ≤ ·) (List.insertionSort (· ≤ ·) l) :=
      List.sorted_insertionSort (· ≤ ·) l
    exact hsorted.rel_get_of_lt (a := ⟨_, hltL⟩) (b := ⟨_, hltU⟩) (by
      rw [Fin.lt_def]
      show ((List.insertionSort (· ≤ ·) l).length - 1) / 2 <
        (List.insertionSort (· ≤ ·) l).length / 2
      rw [hlen]
      omega)
  · intro scoredPrice priceA priceB priceC product sellerScoreVal dec hcore
    simp only [evaluateCore] at hcore
    split at hcore
    · cases hcore
    · rw [Except.ok.injEq] at hcore
      subst hcore
      rfl

/-- Concrete decision used by the C4 witness: output of the scoring core on
the fair-purchase scenario. -/
def c4Decision : Decision :=
  { approved := true, verdict := Verdict.APPROVE, valueScore := 94,
    referencePrice := 1095,
    breakdown := { priceFairness := 100, qualitySignal := 95,
                   sellerTrust := 85, valueRatio := 94 } }

unseal Rat.mul Rat.add Rat.sub Rat.inv in
/-- Witness for C4 (amended): the conjuncts, evaluated on the concrete
even-length list `[3, 1]` and on a concrete engine run. -/
theorem median_observed_upper_middle_witness :
    median [(3 : ℚ), 1] ∈ [(3 : ℚ), 1] ∧
    (([(3 : ℚ), 1]).length % 2 = 1 →
      median [(3 : ℚ), 1] = medianLowerSpec [(3 : ℚ), 1]) ∧
    (([(3 : ℚ), 1]).length % 2 = 0 →
      medianLowerSpec [(3 : ℚ), 1] ≤ median [(3 : ℚ), 1]) ∧
    c4Decision.referencePrice =
      median ([(1049 : ℚ), 1095, 1147].filter (fun x => 0 < x)) :=
  ⟨(median_observed_upper_middle [(3 : ℚ), 1] (by decide)).1,
   (median_observed_upper_middle [(3 : ℚ), 1] (by decide)).2.1,
   (median_observed_upper_middle [(3 : ℚ), 1] (by decide)).2.2.1,
   (median_observed_upper_middle [(3 : ℚ), 1] (by decide)).2.2.2
     1100 1049 1095 1147
     { rating := 47 / 10, reviewCount := 12400, returnRate := 21 / 10 }
     (85 / 100) c4Decision (by decide)⟩

/-- C3: in every `Decision` the engine produces, `approved` is true exactly
when the value score reaches 70 AND the seller trust score is at least 0.4;
a score in `[40, 70)` yields verdict `CAUTION` with `approved = false`; a
score below 40 yields `REJECT`; and a seller trust score below 0.4 forces
`approved = false` no matter how high the value score is. -/
theorem evaluate_verdict_thresholds
    (price priceA priceB priceC : ℚ) (product : ProductData)
    (sellerScoreVal : ℚ) (dec : Decision)
    (h : evaluate price priceA priceB priceC product sellerScoreVal =
      .ok dec) :
    (dec.approved = true ↔
      (70 ≤ dec.valueScore ∧ 2 / 5 ≤ sellerScoreVal)) ∧
    (40 ≤ dec.valueScore → dec.valueScore < 70 →
      dec.verdict = .CAUTION ∧ dec.approved = false) ∧
    (dec.valueScore < 40 → dec.verdict = .REJECT) ∧
    (sellerScoreVal < 2 / 5 → dec.approved = false) := by
  simp only [evaluate] at h
  split at h
  · cases h
  · simp only [evaluateCore] at h
    split at h
    · cases h
    · rw [Except.ok.injEq] at h
      subst h
      constructor
      · constructor
        · intro ha
          simp only [Bool.and_eq_true, Bool.not_eq_true', decide_eq_false_iff_not,
            not_lt, decide_eq_true_eq] at ha
          exact ⟨ha.2, ha.1⟩
        · intro ⟨h70, hss⟩
          simp only [Bool.and_eq_true, Bool.not_eq_true', decide_eq_false_iff_not,
            not_lt, decide_eq_true_eq]
          exact ⟨hss, h70⟩
      refine ⟨?_, ?_, ?_⟩
      · intro h40 h70
        have hap : (!decide (sellerScoreVal < 2 / 5) &&
            decide ((70 : ℚ) ≤ (calculateValueScore
              { proposedPrice := price,
                referencePrice := median ([priceA, priceB, priceC].filter
                  (fun p => 0 < p)),
                rating := product.rating, reviewCount := product.reviewCount,
                returnRate := product.returnRate,
                sellerScoreVal := sellerScoreVal }).valueScore)) = false := by
          simp only [Bool.and_eq_false_iff, decide_eq_false_iff_not, not_le]
          exact Or.inr (by exact_mod_cast h70)
        constructor
        · show (if _ then Verdict.APPROVE else _) = Verdict.CAUTION
          rw [hap]
          simp only [Bool.false_eq_true, if_false]
          rw [if_pos h40]
        · exact hap
      · intro h40
        have hap : (!decide (sellerScoreVal < 2 / 5) &&
            decide ((70 : ℚ) ≤ (calculateValueScore
              { proposedPrice := price,
                referencePrice := median ([priceA, priceB, priceC].filter
                  (fun p => 0 < p)),
                rating := product.rating, reviewCount := product.reviewCount,
                returnRate := product.returnRate,
                sellerScoreVal := sellerScoreVal }).valueScore)) = false := by
          simp only [Bool.and_eq_false_iff, decide_eq_false_iff_not, not_le]
          exact Or.inr (by linarith)
        show (if _ then Verdict.APPROVE else _) = Verdict.REJECT
        rw [hap]
        simp only [Bool.false_eq_true, if_false]
        rw [if_neg (by exact not_le.mpr h40)]
      · intro hss
        simp only [Bool.and_eq_false_iff, Bool.not_eq_false', decide_eq_true_eq]
        exact Or.inl hss

/-- Concrete decision used by the C3 witness: the output of the engine on
the fair-purchase scenario (laptop at 1100 against sources 1049/1095/1147,
seller trust 0.85). -/
def c3Decision : Decision :=
  { approved := true, verdict := Verdict.APPROVE, valueScore := 94,
    referencePrice := 1095,
    breakdown := { priceFairness := 100, qualitySignal := 95,
                   sellerTrust := 85, valueRatio := 94 } }

unseal Rat.mul Rat.add Rat.sub Rat.inv in
/-- Witness for C3: the fair-purchase scenario is approved and its approval
matches the threshold characterisation. -/
theorem evaluate_verdict_thresholds_witness :
    c3Decision.approved = true ↔
      (70 ≤ c3Decision.valueScore ∧ (2 : ℚ) / 5 ≤ 85 / 100) :=
  (evaluate_verdict_thresholds 1100 1049 1095 1147
    { rating := 47 / 10, reviewCount := 12400, returnRate := 21 / 10 }
    (85 / 100) c3Decision (by decide)).1

/-- C7 (spec-modelled engine): an evaluation computes
`effectivePrice = proposedPrice - cashback - coupon + shippingFee` from the
item's deal metadata (`getDealData`; an unknown item means the all-zero
default, i.e. zero adjustment), and the `priceFairness` and `valueRatio`
sub-scores of the returned `Decision` are computed from this effective
price, not from the raw proposed price. -/
theorem evaluateWithDeals_effective_price
    (itemId : String) (price priceA priceB priceC : ℚ)
    (product : ProductData) (sellerScoreVal eff : ℚ) (dec : Decision)
    (h : evaluateWithDeals itemId price priceA priceB priceC product
      sellerScoreVal = .ok (eff, dec)) :
    eff = price - (getDealData itemId).cashback - (getDealData itemId).coupon
      + (getDealData itemId).shippingFee ∧
    evaluateCore eff priceA priceB priceC product sellerScoreVal = .ok dec ∧
    dec.breakdown.priceFairness = jsRound (clamp
      (median ([priceA, priceB, priceC].filter (fun x => 0 < x)) /
        max eff 1 * 100) 0 100) ∧
    dec.breakdown.valueRatio = jsRound (clamp
      (product.rating * 20 /
        (eff / median ([priceA, priceB, priceC].filter (fun x => 0 < x))))
      0 100) ∧
    ((itemId ≠ "laptop-001" ∧ itemId ≠ "phone-001" ∧
      itemId ≠ "headphones-001" ∧ itemId ≠ "tablet-001" ∧
      itemId ≠ "watch-001" ∧ itemId ≠ "cable-001") → eff = price) := by
  simp only [evaluateWithDeals] at h
  split at h
  · cases h
  · cases hcore : evaluateCore
        (price - (getDealData itemId).cashback - (getDealData itemId).coupon
          + (getDealData itemId).shippingFee)
        priceA priceB priceC product sellerScoreVal with
    | error e =>
        rw [hcore] at h
        cases h
    | ok d0 =>
        rw [hcore] at h
        simp only [Except.map] at h
        rw [Except.ok.injEq, Prod.mk.injEq] at h
        obtain ⟨heff, hdec⟩ := h
        subst heff
        subst hdec
        refine ⟨rfl, hcore, ?_, ?_, ?_⟩
        · simp only [evaluateCore] at hcore
          split at hcore
          · cases hcore
          · rw [Except.ok.injEq] at hcore
            subst hcore
            rfl
        · simp only [evaluateCore] at hcore
          split at hcore
          · cases hcore
          · rw [Except.ok.injEq] at hcore
            subst hcore
            rfl
        · intro ⟨h1, h2, h3, h4, h5, h6⟩
          simp only [getDealData, if_neg h1, if_neg h2, if_neg h3, if_neg h4,
            if_neg h5, if_neg h6]
          simp

/-- Concrete decision used by the C7 witness: the engine's output on the
fair-purchase scenario scored at the effective price 1048 (laptop deal:
cashback 52). -/
def c7Decision : Decision :=
  { approved := true, verdict := Verdict.APPROVE, valueScore := 95,
    referencePrice := 1095,
    breakdown := { priceFairness := 100, qualitySignal := 95,
                   sellerTrust := 85, valueRatio := 98 } }

unseal Rat.mul Rat.add Rat.sub Rat.inv in
/-- Witness for C7: on the laptop scenario the effective price is
1100 - 52 = 1048 and the decision is the scoring core's output at 1048. -/
theorem evaluateWithDeals_effective_price_witness :
    (1048 : ℚ) = 1100 - (getDealData "laptop-001").cashback -
      (getDealData "laptop-001").coupon +
      (getDealData "laptop-001").shippingFee ∧
    evaluateCore 1048 1049 1095 1147
      { rating := 47 / 10, reviewCount := 12400, returnRate := 21 / 10 }
      (85 / 100) = .ok c7Decision :=
  ⟨(evaluateWithDeals_effective_price "laptop-001" 1100 1049 1095 1147
      { rating := 47 / 10, reviewCount := 12400, returnRate := 21 / 10 }
      (85 / 100) 1048 c7Decision (by decide)).1,
   (evaluateWithDeals_effective_price "laptop-001" 1100 1049 1095 1147
      { rating := 47 / 10, reviewCount := 12400, returnRate := 21 / 10 }
      (85 / 100) 1048 c7Decision (by decide)).2.1⟩

end DecisionEngine

namespace SellerScore

/-- Helper: `getReviewStats` returns statistics exactly for sellers with at
least one stored review. -/
theorem getReviewStats_count_pos {sellerId : String} {st : ReviewStats}
    (h : getReviewStats sellerId = some st) : 1 ≤ st.count := by
  simp only [getReviewStats] at h
  by_cases hrev : agentReviews sellerId = []
  · rw [if_pos hrev] at h
    cases h
  · rw [if_neg hrev] at h
    rw [Option.some.injEq] at h
    subst h
    show 1 ≤ (agentReviews sellerId).length
    have hpos := List.length_pos.mpr hrev
    omega

unseal Rat.mul Rat.add Rat.sub Rat.inv in
/-- Counterexample for C5: for seller-99 (baseline 0.30, one review
(2,1,1)) the code returns 0.297 — it rounds the review average to two
decimals (`toFixed(2)`) and the blended result to three (`toFixed(3)`) —
while the claim's exact blend formula
`baseline*(1-w) + (average/5)*w` gives 89/300 = 0.29666…, so the stored
trust score does NOT equal the exact blend. -/
theorem getScore_blend_counterexample :
    (getScore "seller-99").score = 297 / 1000 ∧
    (sellersBase "seller-99").1 * (1 - blendWeight 1) +
      ((2 + 1 + 1 : ℚ) / 3) / 5 * blendWeight 1 = 89 / 300 ∧
    (getScore "seller-99").score ≠
      (sellersBase "seller-99").1 * (1 - blendWeight 1) +
        ((2 + 1 + 1 : ℚ) / 3) / 5 * blendWeight 1 := by
  decide

unseal Rat.mul Rat.add Rat.sub Rat.inv in
/-- C5 (amended): the blend weight `min(count*0.1, 0.3)` is monotonically
non-decreasing in the review count and capped at 0.3; the returned trust
score equals the blend formula applied to the code's roundings (review
average rounded to two decimals, final blend to three); a seller with no
reviews gets exactly the stored baseline (every stored baseline has at most
three decimals, so the final rounding is the identity on it); and an
unknown seller gets the neutral default 0.5 rather than an error. -/
theorem getScore_blend_amended :
    (∀ n m : Nat, n ≤ m → blendWeight n ≤ blendWeight m) ∧
    (∀ n : Nat, blendWeight n ≤ 3 / 10) ∧
    (∀ sellerId, (getScore sellerId).score =
      match getReviewStats sellerId with
      | some st => DecisionEngine.roundTo 3
          ((sellersBase sellerId).1 * (1 - blendWeight st.count) +
            st.overall / 5 * blendWeight st.count)
      | none => DecisionEngine.roundTo 3 (sellersBase sellerId).1) ∧
    (∀ sellerId, agentReviews sellerId = [] →
      (getScore sellerId).score = (sellersBase sellerId).1) ∧
    (∀ sellerId, sellerId ≠ "seller-42" → sellerId ≠ "seller-99" →
      sellerId ≠ "seller-100" → sellerId ≠ "seller-200" →
      (getScore sellerId).score = 1 / 2) := by
  refine ⟨?_, ?_, ?_, ?_, ?_⟩
  · intro n m hnm
    unfold blendWeight
    refine min_le_min ?_ le_rfl
    have hcast : (n : ℚ) ≤ (m : ℚ) := by exact_mod_cast hnm
    have hw : (0 : ℚ) ≤ 1 / 10 := by norm_num
    exact mul_le_mul_of_nonneg_right hcast hw
  · intro n
    exact min_le_right _ _
  · intro sellerId
    rcases hst : getReviewStats sellerId with - | st
    · simp only [getScore, hst]
    · have hc := getReviewStats_count_pos hst
      simp only [getScore, hst, if_pos hc]
  · intro sellerId h
    have hstats : getReviewStats sellerId = none := by
      simp [getReviewStats, h]
    simp only [getScore, hstats]
    unfold sellersBase
    split_ifs <;> decide
  · intro sellerId h42 h99 h100 h200
    have hrev : agentReviews sellerId = [] := by
      simp [agentReviews, h42, h100, h99]
    have hstats : getReviewStats sellerId = none := by
      simp [getReviewStats, hrev]
    have hbase : sellersBase sellerId = (1 / 2, 0) := by
      simp [sellersBase, h42, h99, h100, h200]
    simp only [getScore, hstats, hbase]
    decide

unseal Rat.mul Rat.add Rat.sub Rat.inv in
/-- Witness for C5 (amended): concrete instances of the guarded conjuncts —
weight monotone between 1 and 2 reviews, the no-review seller-200 at its
baseline 0.15, and an unknown seller at the neutral 0.5. -/
theorem getScore_blend_amended_witness :
    blendWeight 1 ≤ blendWeight 2 ∧
    (getScore "seller-200").score = (sellersBase "seller-200").1 ∧
    (getScore "seller-777").score = 1 / 2 :=
  ⟨getScore_blend_amended.1 1 2 (by decide),
   getScore_blend_amended.2.2.2.1 "seller-200" (by decide),
   getScore_blend_amended.2.2.2.2 "seller-777" (by decide) (by decide)
     (by decide) (by decide)⟩

end SellerScore
